import Mathlib

/-!
Verification of the `MyOption` combinator library (src/src/option.rs).

The repository reimplements a slice of Rust's `std::option` module as a
two-variant enum `MyOption<T>` with the usual combinator surface
(`is_some`, `is_none`, `as_ref`, `as_mut`, `map`, `map_or`,
`map_or_else`, `unwrap`, `unwrap_or`, `unwrap_or_else`, `ok_or`,
`ok_or_else`, `and`, `and_then`, `filter`, `or`, `or_else`, `xor`).

Embedding conventions:
* `MyOption` is a shallow embedding of the Rust enum, with the source's
  constructor names `None` / `Some` (Lean: `none` / `some`).
* Rust references (`&T`, `&mut T`) are erased: `as_ref` / `as_mut`
  return `MyOption T` (the in-place mutation capability of `as_mut` is
  outside a pure embedding, but its result shape is kept).
* `Result<T, E>` is embedded as `Except E T` (`Ok` = `Except.ok`,
  `Err` = `Except.error`).
* A Rust panic is embedded as `Except.error msg`: `unwrap`, whose
  `None` arm aborts with a fixed diagnostic message in the source,
  returns `Except String T` carrying that message.
* To reason about which operations can abort and which closures are
  invoked, a second, panic-propagating layer (`is_someE`, `mapE`, ...)
  translates the same source code with every closure argument allowed
  to panic (`T → Except String U`); `liftTotal` injects a total closure
  into that closure type.
-/

namespace KPB

/-- The two-variant optional type of src/src/option.rs: an enum over
`None` and `Some(T)`. -/
inductive MyOption (T : Type) where
  | none : MyOption T
  | some (t : T) : MyOption T
  deriving DecidableEq, Repr

namespace MyOption

variable {T U V E : Type}

/-- `is_some`: `matches!(self, MyOption::Some(_))`. -/
def is_some : MyOption T → Bool
  | .some _ => true
  | .none => false

/-- `is_none`: `!self.is_some()`. -/
def is_none (x : MyOption T) : Bool :=
  !x.is_some

/-- `as_ref` with the reference erased: `Some(ref t) => Some(t); None => None`. -/
def as_ref : MyOption T → MyOption T
  | .some t => .some t
  | .none => .none

/-- `as_mut` with the reference erased: `Some(ref mut t) => Some(t); None => None`. -/
def as_mut : MyOption T → MyOption T
  | .some t => .some t
  | .none => .none

/-- `map`: `Some(t) => Some(f(t)); None => None`. -/
def map : MyOption T → (T → U) → MyOption U
  | .some t, f => .some (f t)
  | .none, _ => .none

/-- `map_or`: `Some(val) => f(val); None => default`. -/
def map_or : MyOption T → U → (T → U) → U
  | .some val, _, f => f val
  | .none, default, _ => default

/-- `map_or_else`: `Some(val) => f(val); None => default()`. -/
def map_or_else : MyOption T → (Unit → U) → (T → U) → U
  | .some val, _, f => f val
  | .none, default, _ => default ()

/-- The panic message of the `None` arm of `unwrap` in the source. -/
def unwrapPanicMsg : String :=
  "called `MyOption::unwrap()` on a `None` value"

/-- `unwrap`: `Some(t) => t; None => panic!(...)`, with the panic embedded
as `Except.error` carrying the source's message. -/
def unwrap : MyOption T → Except String T
  | .some t => .ok t
  | .none => .error unwrapPanicMsg

/-- `unwrap_or`: `Some(val) => val; None => default`. -/
def unwrap_or : MyOption T → T → T
  | .some val, _ => val
  | .none, default => default

/-- `unwrap_or_else`: `Some(val) => val; None => f()`. -/
def unwrap_or_else : MyOption T → (Unit → T) → T
  | .some val, _ => val
  | .none, f => f ()

/-- `ok_or`: `Some(val) => Ok(val); None => Err(err)`. -/
def ok_or : MyOption T → E → Except E T
  | .some val, _ => .ok val
  | .none, err => .error err

/-- `ok_or_else`: `Some(val) => Ok(val); None => Err(f())`. -/
def ok_or_else : MyOption T → (Unit → E) → Except E T
  | .some val, _ => .ok val
  | .none, f => .error (f ())

/-- `and`: `Some(val) => optb; None => None`. -/
def and : MyOption T → MyOption U → MyOption U
  | .some _, optb => optb
  | .none, _ => .none

/-- `and_then`: `Some(val) => f(val); None => None`. -/
def and_then : MyOption T → (T → MyOption U) → MyOption U
  | .some val, f => f val
  | .none, _ => .none

/-- `filter`: `Some(t) if predicate(&t) => Some(t); _ => None`. -/
def filter : MyOption T → (T → Bool) → MyOption T
  | .some t, predicate => if predicate t then .some t else .none
  | .none, _ => .none

/-- `or`: `Some(_) => self; None => optb`. -/
def or : MyOption T → MyOption T → MyOption T
  | .some t, _ => .some t
  | .none, optb => optb

/-- `or_else`: `Some(_) => self; None => f()`. -/
def or_else : MyOption T → (Unit → MyOption T) → MyOption T
  | .some t, _ => .some t
  | .none, f => f ()

/-- `xor`: `(Some(a), None) => Some(a); (None, Some(b)) => Some(b); _ => None`. -/
def xor : MyOption T → MyOption T → MyOption T
  | .some a, .none => .some a
  | .none, .some b => .some b
  | _, _ => .none

/-- Injection of a total closure into the panic-capable closure type of
the panic-propagating layer. -/
def liftTotal (f : T → U) : T → Except String U :=
  fun t => .ok (f t)

/-- Panic-propagating `is_some` (the source arm has no closure and no
panic, so the result is always produced). -/
def is_someE : MyOption T → Except String Bool
  | .some _ => .ok true
  | .none => .ok false

/-- Panic-propagating `is_none`. -/
def is_noneE (x : MyOption T) : Except String Bool := do
  let b ← x.is_someE
  pure (!b)

/-- Panic-propagating `as_ref`. -/
def as_refE : MyOption T → Except String (MyOption T)
  | .some t => .ok (.some t)
  | .none => .ok .none

/-- Panic-propagating `as_mut`. -/
def as_mutE : MyOption T → Except String (MyOption T)
  | .some t => .ok (.some t)
  | .none => .ok .none

/-- Panic-propagating `map`: the closure may panic and its panic is the
call's panic. -/
def mapE : MyOption T → (T → Except String U) → Except String (MyOption U)
  | .some t, f => do
    let u ← f t
    pure (.some u)
  | .none, _ => .ok .none

/-- Panic-propagating `map_or` (the eager default is a value already
computed by the caller). -/
def map_orE : MyOption T → U → (T → Except String U) → Except String U
  | .some val, _, f => f val
  | .none, default, _ => .ok default

/-- Panic-propagating `map_or_else`: `Some` runs only `f`, `None` runs
only `default`. -/
def map_or_elseE : MyOption T → (Unit → Except String U) → (T → Except String U) →
    Except String U
  | .some val, _, f => f val
  | .none, default, _ => default ()

/-- Panic-propagating `unwrap_or`. -/
def unwrap_orE : MyOption T → T → Except String T
  | .some val, _ => .ok val
  | .none, default => .ok default

/-- Panic-propagating `unwrap_or_else`: the closure runs only on `None`. -/
def unwrap_or_elseE : MyOption T → (Unit → Except String T) → Except String T
  | .some val, _ => .ok val
  | .none, f => f ()

/-- Panic-propagating `ok_or`. -/
def ok_orE : MyOption T → E → Except String (Except E T)
  | .some val, _ => .ok (.ok val)
  | .none, err => .ok (.error err)

/-- Panic-propagating `ok_or_else`: the error producer runs only on `None`. -/
def ok_or_elseE : MyOption T → (Unit → Except String E) → Except String (Except E T)
  | .some val, _ => .ok (.ok val)
  | .none, f => do
    let e ← f ()
    pure (.error e)

/-- Panic-propagating `and`. -/
def andE : MyOption T → MyOption U → Except String (MyOption U)
  | .some _, optb => .ok optb
  | .none, _ => .ok .none

/-- Panic-propagating `and_then`. -/
def and_thenE : MyOption T → (T → Except String (MyOption U)) →
    Except String (MyOption U)
  | .some val, f => f val
  | .none, _ => .ok .none

/-- Panic-propagating `filter`. -/
def filterE : MyOption T → (T → Except String Bool) → Except String (MyOption T)
  | .some t, predicate => do
    let b ← predicate t
    pure (if b then .some t else .none)
  | .none, _ => .ok .none

/-- Panic-propagating `or`. -/
def orE : MyOption T → MyOption T → Except String (MyOption T)
  | .some t, _ => .ok (.some t)
  | .none, optb => .ok optb

/-- Panic-propagating `or_else`: the closure runs only on `None`. -/
def or_elseE : MyOption T → (Unit → Except String (MyOption T)) →
    Except String (MyOption T)
  | .some t, _ => .ok (.some t)
  | .none, f => f ()

/-- Panic-propagating `xor`. -/
def xorE : MyOption T → MyOption T → Except String (MyOption T)
  | .some a, .none => .ok (.some a)
  | .none, .some b => .ok (.some b)
  | _, _ => .ok .none

end MyOption

/-- The `is_even` predicate of the source's `filter_test`:
`n % 2 == 0` on a signed integer. -/
def is_even (n : Int) : Bool :=
  n % 2 == 0

/-- C1: `unwrap` on `Some t` returns `t`; `unwrap` on `None` does not
return a value but aborts with the fixed, human-readable diagnostic
message identifying the failed unwrap, and no other result is produced
in that case. -/
theorem C1_unwrap_spec :
    (∀ (T : Type) (t : T), (MyOption.some t).unwrap = Except.ok t)
    ∧ (∀ (T : Type), (MyOption.none : MyOption T).unwrap
        = Except.error "called `MyOption::unwrap()` on a `None` value") :=
  ⟨fun _ _ => rfl, fun _ => rfl⟩

/-- C2: every public operation other than `unwrap` is a total function
over both variants: in the panic-propagating layer with total closure
arguments, each operation returns a value (never aborts) on every
input, equal to the pure operation's result. -/
theorem C2_totality :
    (∀ (T : Type) (x : MyOption T), x.is_someE = Except.ok x.is_some)
    ∧ (∀ (T : Type) (x : MyOption T), x.is_noneE = Except.ok x.is_none)
    ∧ (∀ (T : Type) (x : MyOption T), x.as_refE = Except.ok x.as_ref)
    ∧ (∀ (T : Type) (x : MyOption T), x.as_mutE = Except.ok x.as_mut)
    ∧ (∀ (T U : Type) (x : MyOption T) (f : T → U),
        x.mapE (MyOption.liftTotal f) = Except.ok (x.map f))
    ∧ (∀ (T U : Type) (x : MyOption T) (d : U) (f : T → U),
        x.map_orE d (MyOption.liftTotal f) = Except.ok (x.map_or d f))
    ∧ (∀ (T U : Type) (x : MyOption T) (d : Unit → U) (f : T → U),
        x.map_or_elseE (MyOption.liftTotal d) (MyOption.liftTotal f)
          = Except.ok (x.map_or_else d f))
    ∧ (∀ (T : Type) (x : MyOption T) (d : T),
        x.unwrap_orE d = Except.ok (x.unwrap_or d))
    ∧ (∀ (T : Type) (x : MyOption T) (f : Unit → T),
        x.unwrap_or_elseE (MyOption.liftTotal f)
          = Except.ok (x.unwrap_or_else f))
    ∧ (∀ (T E : Type) (x : MyOption T) (e : E),
        x.ok_orE e = Except.ok (x.ok_or e))
    ∧ (∀ (T E : Type) (x : MyOption T) (f : Unit → E),
        x.ok_or_elseE (MyOption.liftTotal f) = Except.ok (x.ok_or_else f))
    ∧ (∀ (T U : Type) (x : MyOption T) (y : MyOption U),
        x.andE y = Except.ok (x.and y))
    ∧ (∀ (T U : Type) (x : MyOption T) (f : T → MyOption U),
        x.and_thenE (MyOption.liftTotal f) = Except.ok (x.and_then f))
    ∧ (∀ (T : Type) (x : MyOption T) (p : T → Bool),
        x.filterE (MyOption.liftTotal p) = Except.ok (x.filter p))
    ∧ (∀ (T : Type) (x y : MyOption T), x.orE y = Except.ok (x.or y))
    ∧ (∀ (T : Type) (x : MyOption T) (f : Unit → MyOption T),
        x.or_elseE (MyOption.liftTotal f) = Except.ok (x.or_else f))
    ∧ (∀ (T : Type) (x y : MyOption T), x.xorE y = Except.ok (x.xor y)) :=
  ⟨fun _ x => by cases x <;> rfl,
   fun _ x => by cases x <;> rfl,
   fun _ x => by cases x <;> rfl,
   fun _ x => by cases x <;> rfl,
   fun _ _ x _ => by cases x <;> rfl,
   fun _ _ x _ _ => by cases x <;> rfl,
   fun _ _ x _ _ => by cases x <;> rfl,
   fun _ x _ => by cases x <;> rfl,
   fun _ x _ => by cases x <;> rfl,
   fun _ _ x _ => by cases x <;> rfl,
   fun _ _ x _ => by cases x <;> rfl,
   fun _ _ x _ => by cases x <;> rfl,
   fun _ _ x _ => by cases x <;> rfl,
   fun _ x _ => by cases x <;> rfl,
   fun _ x y => by cases x <;> rfl,
   fun _ x _ => by cases x <;> rfl,
   fun _ x y => by cases x <;> cases y <;> rfl⟩

/-- C3: `map` sends `Some t` to `Some (f t)` for every function `f`, and
sends `None` to `None` independently of `f`. -/
theorem C3_map_spec :
    (∀ (T U : Type) (f : T → U) (t : T),
        (MyOption.some t).map f = MyOption.some (f t))
    ∧ (∀ (T U : Type) (f : T → U),
        (MyOption.none : MyOption T).map f = MyOption.none) :=
  ⟨fun _ _ _ _ => rfl, fun _ _ _ => rfl⟩

/-- C4: `and_then` composition is associative: chaining through `f` then
`g` equals chaining through their composition. -/
theorem C4_and_then_assoc :
    ∀ (T U V : Type) (x : MyOption T) (f : T → MyOption U) (g : U → MyOption V),
      (x.and_then f).and_then g = x.and_then fun v => (f v).and_then g :=
  fun _ _ _ x _ _ => by cases x <;> rfl

/-- C5: `xor` is `Some` exactly when exactly one side is `Some`, carrying
that side's value, and `None` otherwise; in particular the four variant
combinations behave as listed. -/
theorem C5_xor_spec :
    (∀ (T : Type) (a : T),
        (MyOption.some a).xor MyOption.none = MyOption.some a)
    ∧ (∀ (T : Type) (b : T),
        (MyOption.none : MyOption T).xor (MyOption.some b) = MyOption.some b)
    ∧ (∀ (T : Type) (a b : T),
        (MyOption.some a).xor (MyOption.some b) = MyOption.none)
    ∧ (∀ (T : Type),
        (MyOption.none : MyOption T).xor MyOption.none = MyOption.none)
    ∧ (∀ (T : Type) (x y : MyOption T),
        (x.xor y).is_some = Bool.xor x.is_some y.is_some) :=
  ⟨fun _ _ => rfl, fun _ _ => rfl, fun _ _ _ => rfl, fun _ => rfl,
   fun _ x y => by cases x <;> cases y <;> rfl⟩

/-- C6: the lazy default-producing closure is not invoked on a `Some`
receiver: even when the default closure may abort, `or_else` returns the
receiver, `unwrap_or_else` returns the contained value and
`map_or_else` returns the mapping closure's result, each independent of
the default closure supplied. -/
theorem C6_lazy_else :
    (∀ (T : Type) (v : T) (f : Unit → Except String (MyOption T)),
        (MyOption.some v).or_elseE f = Except.ok (MyOption.some v))
    ∧ (∀ (T : Type) (v : T) (f : Unit → Except String T),
        (MyOption.some v).unwrap_or_elseE f = Except.ok v)
    ∧ (∀ (T U : Type) (v : T) (d : Unit → Except String U)
        (f : T → Except String U),
        (MyOption.some v).map_or_elseE d f = f v) :=
  ⟨fun _ _ _ => rfl, fun _ _ _ => rfl, fun _ _ _ _ _ => rfl⟩

/-- C7: `filter` keeps `Some t` exactly when the predicate holds at `t`,
sends `None` to `None` for every predicate, and in particular keeps
`Some 2` and drops `Some 3` under `is_even`. -/
theorem C7_filter_spec :
    (∀ (T : Type) (pred : T → Bool) (t : T),
        (MyOption.some t).filter pred
          = if pred t then MyOption.some t else MyOption.none)
    ∧ (∀ (T : Type) (pred : T → Bool),
        (MyOption.none : MyOption T).filter pred = MyOption.none)
    ∧ (MyOption.some (2 : Int)).filter is_even = MyOption.some 2
    ∧ (MyOption.some (3 : Int)).filter is_even = MyOption.none :=
  ⟨fun _ _ _ => rfl, fun _ _ => rfl, by decide, by decide⟩

/-- C8: `ok_or` and `ok_or_else` convert `Some t` to `Ok t` and `None`
to `Err` of the given error (eager) or of the producer's output (lazy),
and the lazy form does not run the producer on a `Some` receiver. -/
theorem C8_ok_or_spec :
    (∀ (T E : Type) (t : T) (e : E),
        (MyOption.some t).ok_or e = Except.ok t)
    ∧ (∀ (T E : Type) (e : E),
        (MyOption.none : MyOption T).ok_or e = Except.error e)
    ∧ (∀ (T E : Type) (t : T) (f : Unit → E),
        (MyOption.some t).ok_or_else f = Except.ok t)
    ∧ (∀ (T E : Type) (f : Unit → E),
        (MyOption.none : MyOption T).ok_or_else f = Except.error (f ()))
    ∧ (∀ (T E : Type) (t : T) (f : Unit → Except String E),
        (MyOption.some t).ok_or_elseE f = Except.ok (Except.ok t)) :=
  ⟨fun _ _ _ _ => rfl, fun _ _ _ => rfl, fun _ _ _ _ => rfl,
   fun _ _ _ => rfl, fun _ _ _ _ => rfl⟩

/-- C9: `is_some` and `is_none` report the variant correctly and are
mutually exclusive: on every optional value `is_none` is the negation
of `is_some`. -/
theorem C9_is_some_is_none_spec :
    (∀ (T : Type) (t : T), (MyOption.some t).is_some = true)
    ∧ (∀ (T : Type) (t : T), (MyOption.some t).is_none = false)
    ∧ (∀ (T : Type), (MyOption.none : MyOption T).is_some = false)
    ∧ (∀ (T : Type), (MyOption.none : MyOption T).is_none = true)
    ∧ (∀ (T : Type) (x : MyOption T), x.is_none = !x.is_some) :=
  ⟨fun _ _ => rfl, fun _ _ => rfl, fun _ => rfl, fun _ => rfl,
   fun _ _ => rfl⟩

/-- C10: `xor` is commutative over optional values of the same payload
type. -/
theorem C10_xor_comm :
    ∀ (T : Type) (x y : MyOption T), x.xor y = y.xor x :=
  fun _ x y => by cases x <;> cases y <;> rfl

end KPB
